import Mathlib

/-!
Verification development for the GitHub-Flask integration helper
(`flask_github.py`).  The Python source is shallowly embedded: the
`GitHub` object becomes a structure of its configuration fields, the
`httplib2.Http` collaborator becomes an explicit `Transport` function,
and every operation additionally returns the list of HTTP requests it
issued so that "zero network calls" style properties are expressible.
Python exceptions become `Except` / explicit outcome constructors.
-/

namespace GithubFlask

/-! ## JSON values

Model of the structured values handled by `flask.json` (Python's
`json` module).  A mutual inductive is used instead of
`List (String × Json)` so that recursion over objects stays
structural. -/

mutual

inductive Json where
  | null : Json
  | bool (b : Bool) : Json
  | num (n : Int) : Json
  | str (s : String) : Json
  | obj (fields : JsonFields) : Json
  | arr (elems : JsonElems) : Json

inductive JsonFields where
  | nil : JsonFields
  | cons (k : String) (v : Json) (rest : JsonFields) : JsonFields

inductive JsonElems where
  | nil : JsonElems
  | cons (v : Json) (rest : JsonElems) : JsonElems

end

/-- Python `dict.get` on a parsed JSON object.  Python builds dicts with
later duplicate keys overriding earlier ones, so the last binding wins. -/
def JsonFields.get : JsonFields → String → Option Json
  | JsonFields.nil, _ => none
  | JsonFields.cons k v rest, key =>
    match JsonFields.get rest key with
    | some r => some r
    | none => if k == key then some v else none

/-- Convenience constructor turning an association list into a JSON object. -/
def Json.objOf : List (String × Json) → Json :=
  fun l => Json.obj (go l)
where
  go : List (String × Json) → JsonFields
    | [] => JsonFields.nil
    | p :: rest => JsonFields.cons p.fst p.snd (go rest)

/-! ## JSON decoding (`json.loads`)

A fueled recursive-descent parser over the character list of the input.
It covers the JSON fragment this program exchanges (objects, arrays,
strings with simple escapes, integers, booleans, null); inputs outside
the fragment make `loads` return `none`, which models `json.loads`
raising `ValueError`. -/

/-- The character `{`. -/
def braceOpen : Char := Char.ofNat 123

/-- The character `}`. -/
def braceClose : Char := Char.ofNat 125

/-- Skip JSON whitespace. -/
def skipWs : List Char → List Char
  | c :: cs =>
    if c == ' ' || c == '\t' || c == '\n' || c == '\r' then skipWs cs
    else c :: cs
  | [] => []

/-- Parse the remainder of a string literal (the opening quote already
consumed), handling the simple escape sequences. -/
def parseStrChars : List Char → Option (List Char × List Char)
  | [] => none
  | c :: cs =>
    if c == '"' then some ([], cs)
    else if c == '\\' then
      match cs with
      | [] => none
      | e :: cs2 =>
        let dec : Option Char :=
          if e == '"' then some '"'
          else if e == '\\' then some '\\'
          else if e == '/' then some '/'
          else if e == 'n' then some '\n'
          else if e == 't' then some '\t'
          else if e == 'r' then some '\r'
          else none
        match dec with
        | some d => (parseStrChars cs2).map (fun p => (d :: p.fst, p.snd))
        | none => none
    else (parseStrChars cs).map (fun p => (c :: p.fst, p.snd))

/-- Take a maximal run of decimal digits. -/
def takeDigits : List Char → List Char × List Char
  | [] => ([], [])
  | c :: cs =>
    if c.isDigit then
      let p := takeDigits cs
      (c :: p.fst, p.snd)
    else ([], c :: cs)

/-- Numeric value of a run of decimal digits. -/
def digitsToNat (ds : List Char) : Nat :=
  ds.foldl (fun n c => n * 10 + (c.toNat - 48)) 0

mutual

/-- Parse one JSON value; fuel bounds the recursion depth. -/
def parseVal : Nat → List Char → Option (Json × List Char)
  | 0, _ => none
  | Nat.succ fuel, cs =>
    match skipWs cs with
    | [] => none
    | c :: rest =>
      if c == '"' then
        (parseStrChars rest).map (fun p => (Json.str (String.mk p.fst), p.snd))
      else if c == braceOpen then
        (parseMembers fuel (skipWs rest)).map
          (fun p => (Json.obj p.fst, p.snd))
      else if c == '[' then
        (parseElems fuel (skipWs rest)).map
          (fun p => (Json.arr p.fst, p.snd))
      else if c == 'n' then
        match rest with
        | 'u' :: 'l' :: 'l' :: rest2 => some (Json.null, rest2)
        | _ => none
      else if c == 't' then
        match rest with
        | 'r' :: 'u' :: 'e' :: rest2 => some (Json.bool true, rest2)
        | _ => none
      else if c == 'f' then
        match rest with
        | 'a' :: 'l' :: 's' :: 'e' :: rest2 => some (Json.bool false, rest2)
        | _ => none
      else if c == '-' then
        match takeDigits rest with
        | ([], _) => none
        | (ds, rest2) => some (Json.num (-(Int.ofNat (digitsToNat ds))), rest2)
      else if c.isDigit then
        match takeDigits (c :: rest) with
        | ([], _) => none
        | (ds, rest2) => some (Json.num (Int.ofNat (digitsToNat ds)), rest2)
      else none

/-- Parse the members of an object, positioned right after the opening
brace (whitespace already skipped). -/
def parseMembers : Nat → List Char → Option (JsonFields × List Char)
  | 0, _ => none
  | Nat.succ fuel, cs =>
    match cs with
    | [] => none
    | c :: rest =>
      if c == braceClose then some (JsonFields.nil, rest)
      else if c == '"' then
        match parseStrChars rest with
        | none => none
        | some (key, rest2) =>
          match skipWs rest2 with
          | ':' :: rest3 =>
            match parseVal fuel rest3 with
            | none => none
            | some (v, rest4) =>
              match skipWs rest4 with
              | ',' :: rest5 =>
                match parseMembers fuel (skipWs rest5) with
                | some (fields, rest6) =>
                  some (JsonFields.cons (String.mk key) v fields, rest6)
                | none => none
              | d :: rest5 =>
                if d == braceClose then
                  some (JsonFields.cons (String.mk key) v JsonFields.nil, rest5)
                else none
              | [] => none
          | _ => none
      else none

/-- Parse the elements of an array, positioned right after the opening
bracket (whitespace already skipped). -/
def parseElems : Nat → List Char → Option (JsonElems × List Char)
  | 0, _ => none
  | Nat.succ fuel, cs =>
    match cs with
    | [] => none
    | c :: rest =>
      if c == ']' then some (JsonElems.nil, rest)
      else
        match parseVal fuel cs with
        | none => none
        | some (v, rest2) =>
          match skipWs rest2 with
          | ',' :: rest3 =>
            match parseElems fuel (skipWs rest3) with
            | some (elems, rest4) => some (JsonElems.cons v elems, rest4)
            | none => none
          | ']' :: rest3 => some (JsonElems.cons v JsonElems.nil, rest3)
          | _ => none

end

/-- Model of `json.loads`: parse a whole string as one JSON value;
`none` models the `ValueError` raised on invalid input. -/
def loads (s : String) : Option Json :=
  match parseVal (s.data.length + 4) s.data with
  | some (j, rest) => if (skipWs rest).isEmpty then some j else none
  | none => none

/-! ## JSON encoding (`json.dumps`) -/

/-- Encode a string literal the way `json.dumps` does for the simple
character set this program emits (escaping quote and backslash). -/
def dumpStr (s : String) : String :=
  "\"" ++ String.mk (s.data.foldr escape []) ++ "\""
where
  escape (c : Char) (acc : List Char) : List Char :=
    if c == '"' then '\\' :: '"' :: acc
    else if c == '\\' then '\\' :: '\\' :: acc
    else c :: acc

mutual

/-- Model of `json.dumps` with Python's default separators
(item separator `, `, key separator `: `). -/
def Json.dumps : Json → String
  | Json.null => "null"
  | Json.bool true => "true"
  | Json.bool false => "false"
  | Json.num n => toString n
  | Json.str s => dumpStr s
  | Json.obj fields => "\x7b" ++ JsonFields.dumps fields ++ "\x7d"
  | Json.arr elems => "[" ++ JsonElems.dumps elems ++ "]"

/-- Encode the members of an object. -/
def JsonFields.dumps : JsonFields → String
  | JsonFields.nil => ""
  | JsonFields.cons k v JsonFields.nil => dumpStr k ++ ": " ++ Json.dumps v
  | JsonFields.cons k v rest =>
    dumpStr k ++ ": " ++ Json.dumps v ++ ", " ++ JsonFields.dumps rest

/-- Encode the elements of an array. -/
def JsonElems.dumps : JsonElems → String
  | JsonElems.nil => ""
  | JsonElems.cons v JsonElems.nil => Json.dumps v
  | JsonElems.cons v rest => Json.dumps v ++ ", " ++ JsonElems.dumps rest

end

/-! ## HTTP transport model

`httplib2.Http.request` returns a pair of a response object (a mapping
of lower-cased header names that also carries `.status`) and the body
content.  The transport is the external collaborator: any function from
requests to such pairs. -/

structure HttpRequest where
  url : String
  method : String
  headers : List (String × String)
  body : Option String

/-- The `httplib2` response object: status plus the header map. -/
structure HttpResponse where
  status : Nat
  headers : List (String × String)

def Transport : Type := HttpRequest → HttpResponse × String

/-- Python `dict.get(key, default)` on a header map. -/
def headerGetD (hs : List (String × String)) (k : String) (d : String) : String :=
  match hs.find? (fun p => p.fst == k) with
  | some p => p.snd
  | none => d

/-- Python `dict[key]` on a header map, as an option (a missing key
raises `KeyError` in Python). -/
def headerFind (hs : List (String × String)) (k : String) : Option String :=
  (hs.find? (fun p => p.fst == k)).map (fun p => p.snd)

/-- `request.args.get(key)`: first value for the key, if any. -/
def argsGet (args : List (String × String)) (k : String) : Option String :=
  (args.find? (fun p => p.fst == k)).map (fun p => p.snd)

/-- `key in request.args`. -/
def argsHasCode (args : List (String × String)) : Bool :=
  (args.find? (fun p => p.fst == "code")).isSome

/-- Python `s.startswith(pre)`. -/
def strStartsWith (s pre : String) : Bool :=
  go s.data pre.data
where
  go : List Char → List Char → Bool
    | _, [] => true
    | [], _ :: _ => false
    | c :: cs, p :: ps => c == p && go cs ps

/-! ## Percent-encoding (`urllib.parse.urlencode` / `quote_plus`) -/

/-- Upper-case hexadecimal digit for a value below 16. -/
def hexDigitChar (n : Nat) : Char :=
  if n < 10 then Char.ofNat (48 + n) else Char.ofNat (55 + n)

/-- UTF-8 encoding of one character, as byte values. -/
def utf8Bytes (c : Char) : List Nat :=
  let n := c.toNat
  if n < 128 then [n]
  else if n < 2048 then [192 + n / 64, 128 + n % 64]
  else if n < 65536 then [224 + n / 4096, 128 + n / 64 % 64, 128 + n % 64]
  else [240 + n / 262144, 128 + n / 4096 % 64, 128 + n / 64 % 64, 128 + n % 64]

/-- `quote_plus` on a single byte: unreserved bytes pass through, space
becomes `+`, everything else becomes `%XX`. -/
def encodeByte (n : Nat) (acc : List Char) : List Char :=
  if (65 ≤ n && n ≤ 90) || (97 ≤ n && n ≤ 122) || (48 ≤ n && n ≤ 57)
      || n == 95 || n == 46 || n == 45 || n == 126 then
    Char.ofNat n :: acc
  else if n == 32 then '+' :: acc
  else '%' :: hexDigitChar (n / 16) :: hexDigitChar (n % 16) :: acc

/-- Model of `urllib.parse.quote_plus` with its default safe set. -/
def quotePlus (s : String) : String :=
  String.mk
    (s.data.foldr (fun c acc => (utf8Bytes c).foldr encodeByte acc) [])

/-- Model of `urllib.parse.urlencode`: quote each key and value and join
with `=` and `&`, in order. -/
def urlencode : List (String × String) → String
  | [] => ""
  | [p] => quotePlus p.fst ++ "=" ++ quotePlus p.snd
  | p :: rest =>
    quotePlus p.fst ++ "=" ++ quotePlus p.snd ++ "&" ++ urlencode rest

/-! ## The `GitHub` extension object -/

/-- Class attribute `GitHub.BASE_URL`. -/
def BASE_URL : String := "https://api.github.com/"

/-- Class attribute `GitHub.BASE_AUTH_URL`. -/
def BASE_AUTH_URL : String := "https://github.com/login/oauth/"

/-- The Flask `app.config` entries `init_app` reads.  `GITHUB_BASE_URL`
is read with `app.config.get`, so it is optional. -/
structure AppConfig where
  GITHUB_CLIENT_ID : String
  GITHUB_CLIENT_SECRET : String
  GITHUB_CALLBACK_URL : String
  GITHUB_BASE_URL : Option String

/-- The configuration state a `GitHub` instance holds after
`init_app` (the `Http()` transport collaborator is passed explicitly to
each operation). -/
structure GitHub where
  client_id : String
  client_secret : String
  callback_url : String
  base_url : String

/-- `GitHub.init_app`: copy the config entries, defaulting
`base_url` to the class attribute `BASE_URL`. -/
def init_app (app : AppConfig) : GitHub :=
  ⟨app.GITHUB_CLIENT_ID, app.GITHUB_CLIENT_SECRET, app.GITHUB_CALLBACK_URL,
    app.GITHUB_BASE_URL.getD BASE_URL⟩

/-! ## Error model

`GitHubError` wraps the response object (only — `request` raises
`GitHubError(resp)`, never passing the body content).  The other
constructors model the Python exceptions the embedded code can raise. -/

structure GitHubError where
  response : HttpResponse

/-- `GitHubError.__str__`: `"%s: %s" % (self.response.status, message)`
where `message` is `self.response['message']` — a lookup in the wrapped
response mapping — with any lookup failure swallowed, leaving `None`
(printed by `%s` as `"None"`). -/
def GitHubError.toStr (e : GitHubError) : String :=
  let message : Option String := headerFind e.response.headers "message"
  toString e.response.status ++ ": " ++
    (match message with
     | some m => m
     | none => "None")

inductive PyError where
  | valueError
  | attributeError
  | typeError

/-! ## Authorization flow -/

/-- `GitHub.authorize(scope)`: build the params dict (insertion order
`client_id`, `redirect_uri`, then `scope` when supplied), urlencode it
and return the redirect target.  The second component is the list of
HTTP requests issued — always empty: this step is pure URL
construction. -/
def authorize (self : GitHub) (scope : Option String) :
    String × List HttpRequest :=
  let params :=
    match scope with
    | some s =>
      [("client_id", self.client_id), ("redirect_uri", self.callback_url),
        ("scope", s)]
    | none =>
      [("client_id", self.client_id), ("redirect_uri", self.callback_url)]
  (BASE_AUTH_URL ++ "authorize?" ++ urlencode params, [])

/-- The POST request `_handle_response` sends to the token endpoint:
`json.dumps` of the params dict (insertion order `code`, `client_id`,
`client_secret`; an absent `code` would serialize as `null`) posted to
`BASE_AUTH_URL + 'access_token'` with the JSON content-type header. -/
def tokenRequestFor (self : GitHub) (reqArgs : List (String × String)) :
    HttpRequest :=
  let params :=
    Json.objOf
      [("code", match argsGet reqArgs "code" with
                | some c => Json.str c
                | none => Json.null),
        ("client_id", Json.str self.client_id),
        ("client_secret", Json.str self.client_secret)]
  ⟨BASE_AUTH_URL ++ "access_token", "POST",
    [("Content-Type", "application/json")], some (Json.dumps params)⟩

/-- `GitHub._handle_response`: POST the code exchange; on a status other
than exactly 200 return `None`; on 200, `json.loads` the content and
return `data.get('access_token')`.  `Except.error` models the Python
exceptions `json.loads` / `.get` can raise (`ValueError` on a malformed
body, `AttributeError` when the parsed body is not a dict). -/
def handle_response (self : GitHub) (http : Transport)
    (reqArgs : List (String × String)) :
    Except PyError (Option Json) × List HttpRequest :=
  let req := tokenRequestFor self reqArgs
  let rc := http req
  if rc.fst.status ≠ 200 then (Except.ok none, [req])
  else
    match loads rc.snd with
    | some (Json.obj fields) => (Except.ok (JsonFields.get fields "access_token"), [req])
    | some _ => (Except.error PyError.attributeError, [req])
    | none => (Except.error PyError.valueError, [req])

/-- Values a Flask route handler can receive as arguments. -/
inductive PyVal where
  | none : PyVal
  | json (j : Json) : PyVal
  | other (n : Nat) : PyVal

/-- The token-or-null a callback produced, as a handler argument. -/
def pyOfData : Option Json → PyVal
  | some j => PyVal.json j
  | Option.none => PyVal.none

/-- The `if 'code' in request.args` dispatch inside the decorated
callback handler: exchange the code when present, else
`_handle_invalid_response` (which just returns `None`, issuing no
request). -/
def callbackData (self : GitHub) (http : Transport)
    (reqArgs : List (String × String)) :
    Except PyError (Option Json) × List HttpRequest :=
  if argsHasCode reqArgs then handle_response self http reqArgs
  else (Except.ok none, [])

/-- The wrapper that `GitHub.authorized_handler` builds around a route
handler `f`: compute the callback data and call
`f(*((data,) + args), **kwargs)`; an exception from the exchange
propagates and `f` is not called. -/
def decorated {R : Type} (self : GitHub) (http : Transport)
    (f : List PyVal → List (String × PyVal) → R)
    (reqArgs : List (String × String))
    (args : List PyVal) (kwargs : List (String × PyVal)) :
    Except PyError R × List HttpRequest :=
  let p := callbackData self http reqArgs
  match p.fst with
  | Except.ok d => (Except.ok (f (pyOfData d :: args) kwargs), p.snd)
  | Except.error e => (Except.error e, p.snd)

/-! ## Authenticated client -/

/-- The URL `raw_request` builds:
`'%s%s?access_token=%s' % (self.BASE_URL, resource, token)`.  Note the
source interpolates the class attribute `BASE_URL`, not the configured
`self.base_url`. -/
def apiRequestUrl (token resource : String) : String :=
  BASE_URL ++ resource ++ "?access_token=" ++ token

/-- `GitHub.raw_request`: build the URL with the token from the
access-token getter, then call the transport, with the body omitted
when falsy (absent or empty).  The instance is unused here because the
source reads no instance field in this method — in particular not
`self.base_url`. -/
def raw_request (_self : GitHub) (http : Transport) (token : String)
    (method resource : String) (headers : List (String × String))
    (body : Option String) :
    (HttpResponse × String) × List HttpRequest :=
  let url := apiRequestUrl token resource
  let sentBody :=
    match body with
    | some b => if b.isEmpty then none else some b
    | none => none
  let req : HttpRequest := ⟨url, method, headers, sentBody⟩
  (http req, [req])

/-- Outcome of `GitHub.request`: a returned value (decoded JSON or raw
content), a raised `GitHubError`, a failed `assert` (1xx/3xx/5xx), or a
`json.loads` failure on a JSON-typed 2xx body. -/
inductive ReqOutcome where
  | ok (v : Json ⊕ String) : ReqOutcome
  | githubError (e : GitHubError) : ReqOutcome
  | assertionFailed : ReqOutcome
  | decodeError : ReqOutcome

/-- `GitHub.request`: call `raw_request`; when `str(status)` starts with
`'4'` raise `GitHubError(resp)`; otherwise `assert` it starts with
`'2'`; then decode by content-type: `json.loads` when the
`content-type` header starts with `application/json`, else return the
raw content. -/
def request (self : GitHub) (http : Transport) (token : String)
    (method resource : String) (headers : List (String × String))
    (body : Option String) : ReqOutcome × List HttpRequest :=
  let r := raw_request self http token method resource headers body
  let resp := r.fst.fst
  let content := r.fst.snd
  let status_code := toString resp.status
  let out : ReqOutcome :=
    if strStartsWith status_code "4" then ReqOutcome.githubError ⟨resp⟩
    else if strStartsWith status_code "2" then
      if strStartsWith (headerGetD resp.headers "content-type" "") "application/json" then
        match loads content with
        | some j => ReqOutcome.ok (Sum.inl j)
        | none => ReqOutcome.decodeError
      else ReqOutcome.ok (Sum.inr content)
    else ReqOutcome.assertionFailed
  (out, r.snd)

/-- The keyword parameters `GitHub.request` declares
(`def request(self, method, resource, headers=None, body=None)`). -/
def requestKeywordParams : List String := ["headers", "body"]

/-- The keyword arguments `GitHub.post` supplies in
`self.request('POST', resource, headers=headers, data=data)`. -/
def postSuppliedKeywords : List String := ["headers", "data"]

/-- `GitHub.post(resource, data)`: set the JSON content-type header,
`json.dumps` the data, and call `self.request` with the keyword
arguments `headers` and `data`.  Python binds keyword arguments against
the callee's parameter names and raises `TypeError` on an unexpected
one before the callee runs, so when the binding fails no request is
issued. -/
def post (self : GitHub) (http : Transport) (token : String)
    (resource : String) (d : Json) :
    Except PyError (ReqOutcome × List HttpRequest) :=
  let headers := [("Content-Type", "application/json")]
  let data := Json.dumps d
  if postSuppliedKeywords.all (fun k => requestKeywordParams.contains k) then
    Except.ok (request self http token "POST" resource headers (some data))
  else Except.error PyError.typeError

/-! ## Concrete fixtures used by witnesses and counterexamples -/

/-- A concrete configured instance. -/
def gh0 : GitHub := ⟨"cid", "csec", "http://cb", BASE_URL⟩

/-- Stub transport answering 404 with an empty body. -/
def t404 : Transport := fun _ => (⟨404, []⟩, "")

/-- Stub transport answering 500 with an empty body. -/
def t500 : Transport := fun _ => (⟨500, []⟩, "")

/-- Stub transport answering 200 with a JSON body. -/
def t200json : Transport :=
  fun _ =>
    (⟨200, [("content-type", "application/json")]⟩, "\x7b\"login\": \"octocat\"\x7d")

/-- Stub transport answering 200 with a plain-text body. -/
def t200text : Transport :=
  fun _ => (⟨200, [("content-type", "text/plain")]⟩, "hello")

/-- Stub transport answering 404 with the JSON body
`{"message": "Not Found"}`. -/
def t404json : Transport :=
  fun _ =>
    (⟨404, [("content-type", "application/json")]⟩,
      "\x7b\"message\": \"Not Found\"\x7d")

/-- Stub transport answering 401 with an empty body. -/
def t401 : Transport := fun _ => (⟨401, []⟩, "")

/-- Stub token endpoint answering 200 with an access token. -/
def t200tok : Transport :=
  fun _ => (⟨200, []⟩, "\x7b\"access_token\": \"tok123\"\x7d")

/-- Stub token endpoint answering 200 with a JSON body lacking
`access_token`. -/
def t200notok : Transport :=
  fun _ => (⟨200, []⟩, "\x7b\"token_type\": \"bearer\"\x7d")

/-! ## Claims -/

/-- C1: for every response `request` observes, a status whose first
digit is 4 raises `GitHubError` (nothing is returned); a status whose
first digit is neither 4 nor 2 trips the `assert` (fatal, not a
recoverable error); on a first digit of 2 the decoded JSON value is
returned when the `content-type` header starts with
`application/json`, else the raw content is returned unmodified. -/
theorem c1_request_status_dispatch (self : GitHub) (http : Transport)
    (token method resource : String) (headers : List (String × String))
    (body : Option String) (resp : HttpResponse) (content : String)
    (hhttp : (raw_request self http token method resource headers body).fst
      = (resp, content)) :
    (strStartsWith (toString resp.status) "4" = true →
      (request self http token method resource headers body).fst =
        ReqOutcome.githubError ⟨resp⟩) ∧
    (strStartsWith (toString resp.status) "4" = false ∧
        strStartsWith (toString resp.status) "2" = false →
      (request self http token method resource headers body).fst =
        ReqOutcome.assertionFailed) ∧
    (∀ j, strStartsWith (toString resp.status) "2" = true ∧
        strStartsWith (headerGetD resp.headers "content-type" "")
          "application/json" = true ∧
        loads content = some j →
      (request self http token method resource headers body).fst =
        ReqOutcome.ok (Sum.inl j)) ∧
    (strStartsWith (toString resp.status) "2" = true ∧
        strStartsWith (headerGetD resp.headers "content-type" "")
          "application/json" = false →
      (request self http token method resource headers body).fst =
        ReqOutcome.ok (Sum.inr content)) := by
  refine ⟨fun h4 => ?_, fun h => ?_, fun j h => ?_, fun h => ?_⟩
  · simp [request, hhttp, h4]
  · obtain ⟨h4, h2⟩ := h
    simp [request, hhttp, h4, h2]
  · obtain ⟨h2, hct, hl⟩ := h
    have h4 : strStartsWith (toString resp.status) "4" = false := by
      cases hsw : strStartsWith (toString resp.status) "4" with
      | false => rfl
      | true => ?_
      exfalso
      revert h2 hsw
      cases toString resp.status with
      | mk data =>
        cases data with
        | nil => simp [strStartsWith, strStartsWith.go]
        | cons c cs => simp [strStartsWith, strStartsWith.go]; intro hc; simp [hc]
    simp [request, hhttp, h4, h2, hct, hl]
  · obtain ⟨h2, hct⟩ := h
    have h4 : strStartsWith (toString resp.status) "4" = false := by
      cases hsw : strStartsWith (toString resp.status) "4" with
      | false => rfl
      | true => ?_
      exfalso
      revert h2 hsw
      cases toString resp.status with
      | mk data =>
        cases data with
        | nil => simp [strStartsWith, strStartsWith.go]
        | cons c cs => simp [strStartsWith, strStartsWith.go]; intro hc; simp [hc]
    simp [request, hhttp, h4, h2, hct]

/-- Witness for C1: the four branches at concrete stub transports. -/
theorem c1_witness :
    (request gh0 t404 "tok" "GET" "user" [] none).fst =
      ReqOutcome.githubError ⟨⟨404, []⟩⟩ ∧
    (request gh0 t500 "tok" "GET" "user" [] none).fst =
      ReqOutcome.assertionFailed ∧
    (request gh0 t200json "tok" "GET" "user" [] none).fst =
      ReqOutcome.ok (Sum.inl (Json.objOf [("login", Json.str "octocat")])) ∧
    (request gh0 t200text "tok" "GET" "user" [] none).fst =
      ReqOutcome.ok (Sum.inr "hello") := by
  refine ⟨?_, ?_, ?_, ?_⟩
  · exact (c1_request_status_dispatch gh0 t404 "tok" "GET" "user" [] none
      ⟨404, []⟩ "" rfl).1 rfl
  · exact (c1_request_status_dispatch gh0 t500 "tok" "GET" "user" [] none
      ⟨500, []⟩ "" rfl).2.1 ⟨rfl, rfl⟩
  · exact (c1_request_status_dispatch gh0 t200json "tok" "GET" "user" [] none
      ⟨200, [("content-type", "application/json")]⟩
      "\x7b\"login\": \"octocat\"\x7d" rfl).2.2.1
      (Json.objOf [("login", Json.str "octocat")]) ⟨rfl, rfl, rfl⟩
  · exact (c1_request_status_dispatch gh0 t200text "tok" "GET" "user" [] none
      ⟨200, [("content-type", "text/plain")]⟩ "hello" rfl).2.2.2 ⟨rfl, rfl⟩

/-- C2 (the code, evaluated at the failing configuration): `init_app`
stores the configured `GITHUB_BASE_URL` override in `base_url`, but
`raw_request` interpolates the class attribute `BASE_URL`, so the URL
it issues is not the configured base concatenated with the resource. -/
theorem c2_configured_base_url_is_ignored :
    (init_app ⟨"cid", "csec", "http://cb",
        some "https://ghe.example.com/api/v3/"⟩).base_url =
      "https://ghe.example.com/api/v3/" ∧
    (raw_request
        (init_app ⟨"cid", "csec", "http://cb",
          some "https://ghe.example.com/api/v3/"⟩)
        t200text "tok" "GET" "user" [] none).snd =
      [⟨"https://api.github.com/user?access_token=tok", "GET", [], none⟩] ∧
    ¬ ("https://api.github.com/user?access_token=tok" =
        (init_app ⟨"cid", "csec", "http://cb",
          some "https://ghe.example.com/api/v3/"⟩).base_url ++
          "user?access_token=tok") :=
  ⟨rfl, rfl, by decide⟩

/-- C3 counterexample: a 404 whose body is the structured JSON
`{"message": "Not Found"}` raises a `GitHubError` that renders as
`"404: None"`, not `"404: Not Found"` — the body never reaches the
error, which wraps only the response object. -/
theorem c3_counterexample :
    (request gh0 t404json "tok" "GET" "user" [] none).fst =
      ReqOutcome.githubError ⟨⟨404, [("content-type", "application/json")]⟩⟩ ∧
    loads "\x7b\"message\": \"Not Found\"\x7d" =
      some (Json.objOf [("message", Json.str "Not Found")]) ∧
    GitHubError.toStr ⟨⟨404, [("content-type", "application/json")]⟩⟩ =
      "404: None" ∧
    ¬ ("404: None" = "404: Not Found") :=
  ⟨rfl, rfl, rfl, by decide⟩

/-- C3 amended: the rendered message is `"{status}: {message}"` where
`message` is the `'message'` entry of the wrapped response object's
mapping (its headers) when present, and the `"None"` placeholder
otherwise; the response body is never consulted, and rendering is total
(never raises). -/
theorem c3_message_from_response_mapping (resp : HttpResponse) :
    (∀ m, headerFind resp.headers "message" = some m →
      GitHubError.toStr ⟨resp⟩ = toString resp.status ++ ": " ++ m) ∧
    (headerFind resp.headers "message" = none →
      GitHubError.toStr ⟨resp⟩ = toString resp.status ++ ": " ++ "None") := by
  constructor
  · intro m h
    simp [GitHubError.toStr, h]
  · intro h
    simp [GitHubError.toStr, h]

/-- Witness for C3's amended statement: both rendering cases at
concrete responses. -/
theorem c3_witness :
    GitHubError.toStr ⟨⟨400, [("message", "Bad")]⟩⟩ =
      toString (400 : Nat) ++ ": " ++ "Bad" ∧
    GitHubError.toStr ⟨⟨404, []⟩⟩ = toString (404 : Nat) ++ ": " ++ "None" :=
  ⟨(c3_message_from_response_mapping ⟨400, [("message", "Bad")]⟩).1 "Bad" rfl,
    (c3_message_from_response_mapping ⟨404, []⟩).2 rfl⟩

/-- C4: when the callback carries a `code` and the token-endpoint POST
answers with any status other than exactly 200, the exchange yields
`None` without raising, after the single POST. -/
theorem c4_non_200_token_exchange_yields_none (self : GitHub)
    (http : Transport) (reqArgs : List (String × String))
    (h : (http (tokenRequestFor self reqArgs)).fst.status ≠ 200) :
    handle_response self http reqArgs =
      (Except.ok none, [tokenRequestFor self reqArgs]) := by
  simp [handle_response, h]

/-- Witness for C4: a 401 from the token endpoint yields `None`. -/
theorem c4_witness :
    (t401 (tokenRequestFor gh0 [("code", "abc")])).fst.status ≠ 200 ∧
    handle_response gh0 t401 [("code", "abc")] =
      (Except.ok none, [tokenRequestFor gh0 [("code", "abc")]]) :=
  ⟨by decide,
    c4_non_200_token_exchange_yields_none gh0 t401 [("code", "abc")] (by decide)⟩

/-- C5: when the callback's query parameters contain no `code`, the
wrapped handler is called with `None` prepended, nothing is raised, and
the list of issued HTTP requests is empty. -/
theorem c5_no_code_no_token_no_network {R : Type} (self : GitHub)
    (http : Transport) (f : List PyVal → List (String × PyVal) → R)
    (reqArgs : List (String × String)) (args : List PyVal)
    (kwargs : List (String × PyVal))
    (h : argsHasCode reqArgs = false) :
    decorated self http f reqArgs args kwargs =
      (Except.ok (f (PyVal.none :: args) kwargs), []) := by
  simp [decorated, callbackData, h, pyOfData]

/-- Witness for C5: a callback with only an `error` parameter. -/
theorem c5_witness :
    argsHasCode [("error", "denied")] = false ∧
    decorated gh0 t200tok
        (fun (a : List PyVal) (k : List (String × PyVal)) => (a, k))
        [("error", "denied")] [PyVal.other 1] [("x", PyVal.other 2)] =
      (Except.ok (PyVal.none :: [PyVal.other 1], [("x", PyVal.other 2)]), []) :=
  ⟨rfl,
    c5_no_code_no_token_no_network gh0 t200tok
      (fun (a : List PyVal) (k : List (String × PyVal)) => (a, k))
      [("error", "denied")] [PyVal.other 1] [("x", PyVal.other 2)] rfl⟩

/-- C6: when the callback carries a `code` and the token endpoint
answers 200 with a JSON object containing `access_token`, that field's
value is the result of the exchange. -/
theorem c6_access_token_extracted (self : GitHub) (http : Transport)
    (reqArgs : List (String × String)) (fields : JsonFields) (v : Json)
    (h200 : (http (tokenRequestFor self reqArgs)).fst.status = 200)
    (hload : loads (http (tokenRequestFor self reqArgs)).snd =
      some (Json.obj fields))
    (hget : JsonFields.get fields "access_token" = some v) :
    handle_response self http reqArgs =
      (Except.ok (some v), [tokenRequestFor self reqArgs]) := by
  simp [handle_response, h200, hload, hget]

/-- Witness for C6: body `{"access_token": "tok123"}` yields
`"tok123"`. -/
theorem c6_witness :
    (t200tok (tokenRequestFor gh0 [("code", "abc")])).fst.status = 200 ∧
    loads (t200tok (tokenRequestFor gh0 [("code", "abc")])).snd =
      some (Json.obj
        (JsonFields.cons "access_token" (Json.str "tok123") JsonFields.nil)) ∧
    handle_response gh0 t200tok [("code", "abc")] =
      (Except.ok (some (Json.str "tok123")),
        [tokenRequestFor gh0 [("code", "abc")]]) :=
  ⟨rfl, rfl,
    c6_access_token_extracted gh0 t200tok [("code", "abc")]
      (JsonFields.cons "access_token" (Json.str "tok123") JsonFields.nil)
      (Json.str "tok123") rfl rfl rfl⟩

/-- C7: whenever the callback data computation completes with value `d`
(token or `None`), the wrapped handler is invoked with `d` prepended as
the first positional argument and the original positional and keyword
arguments preserved unchanged after it. -/
theorem c7_token_prepended_to_handler_args {R : Type} (self : GitHub)
    (http : Transport) (f : List PyVal → List (String × PyVal) → R)
    (reqArgs : List (String × String)) (args : List PyVal)
    (kwargs : List (String × PyVal)) (d : Option Json)
    (h : (callbackData self http reqArgs).fst = Except.ok d) :
    decorated self http f reqArgs args kwargs =
      (Except.ok (f (pyOfData d :: args) kwargs),
        (callbackData self http reqArgs).snd) := by
  simp [decorated, h]

/-- Witness for C7: a successful exchange prepends the token to the
handler's arguments, keeping the original ones. -/
theorem c7_witness :
    (callbackData gh0 t200tok [("code", "abc")]).fst =
      Except.ok (some (Json.str "tok123")) ∧
    decorated gh0 t200tok
        (fun (a : List PyVal) (k : List (String × PyVal)) => (a, k))
        [("code", "abc")] [PyVal.other 7] [("k", PyVal.other 8)] =
      (Except.ok (PyVal.json (Json.str "tok123") :: [PyVal.other 7],
          [("k", PyVal.other 8)]),
        (callbackData gh0 t200tok [("code", "abc")]).snd) :=
  ⟨rfl,
    c7_token_prepended_to_handler_args gh0 t200tok
      (fun (a : List PyVal) (k : List (String × PyVal)) => (a, k))
      [("code", "abc")] [PyVal.other 7] [("k", PyVal.other 8)]
      (some (Json.str "tok123")) rfl⟩

/-- C8 (the code, evaluated): `post` always raises `TypeError`, because
it forwards the serialized data under the keyword `data`, which
`request` (whose keyword parameters are `headers` and `body`) does not
accept; no request is ever issued and no body is sent. -/
theorem c8_post_raises_typeerror (self : GitHub) (http : Transport)
    (token resource : String) (d : Json) :
    post self http token resource d = Except.error PyError.typeError := rfl

/-- C9: the authorization redirect target is the OAuth base followed by
`authorize` with percent-encoded `client_id` and `redirect_uri` query
parameters and a percent-encoded `scope` parameter; without a scope the
parameter is omitted entirely; and the operation issues no HTTP
request. -/
theorem c9_authorize_redirect_url (self : GitHub) :
    (∀ S, authorize self (some S) =
      ("https://github.com/login/oauth/authorize?" ++
        (("client_id=" ++ quotePlus self.client_id ++ "&") ++
          (("redirect_uri=" ++ quotePlus self.callback_url ++ "&") ++
            ("scope=" ++ quotePlus S))), [])) ∧
    authorize self none =
      ("https://github.com/login/oauth/authorize?" ++
        (("client_id=" ++ quotePlus self.client_id ++ "&") ++
          ("redirect_uri=" ++ quotePlus self.callback_url)), []) :=
  ⟨fun _ => rfl, rfl⟩

/-- C10: when the token endpoint answers 200 with a JSON object lacking
`access_token`, the exchange yields `None` without raising — the same
signal as a denied authorization. -/
theorem c10_missing_access_token_yields_none (self : GitHub)
    (http : Transport) (reqArgs : List (String × String))
    (fields : JsonFields)
    (h200 : (http (tokenRequestFor self reqArgs)).fst.status = 200)
    (hload : loads (http (tokenRequestFor self reqArgs)).snd =
      some (Json.obj fields))
    (hget : JsonFields.get fields "access_token" = none) :
    handle_response self http reqArgs =
      (Except.ok none, [tokenRequestFor self reqArgs]) := by
  simp [handle_response, h200, hload, hget]

/-- Witness for C10: body `{"token_type": "bearer"}` yields `None`. -/
theorem c10_witness :
    (t200notok (tokenRequestFor gh0 [("code", "abc")])).fst.status = 200 ∧
    loads (t200notok (tokenRequestFor gh0 [("code", "abc")])).snd =
      some (Json.obj
        (JsonFields.cons "token_type" (Json.str "bearer") JsonFields.nil)) ∧
    handle_response gh0 t200notok [("code", "abc")] =
      (Except.ok none, [tokenRequestFor gh0 [("code", "abc")]]) :=
  ⟨rfl, rfl,
    c10_missing_access_token_yields_none gh0 t200notok [("code", "abc")]
      (JsonFields.cons "token_type" (Json.str "bearer") JsonFields.nil)
      rfl rfl rfl⟩

end GithubFlask
